import Mathlib

/-!
Shallow embedding of `async_cache/jobs.py` (class `AsyncCacheJob`).

Python values that can flow through the cache layer are modelled by `PyVal`.
The Django cache (`django.core.cache.cache`) is modelled as an association
list of (key, stored value, timeout) triples; `cache.get` returns the stored
value, or `None` when the key is absent (the Django default), and `cache.set`
records the value together with the timeout argument.  Exceptions are
modelled with `Except`: `fetch` may fail with an error string, and the task
dispatcher (`tasks.refresh_cache.delay`) may fail with an error string.
`get` returns, besides its `Except` result, the resulting cache, the list of
successfully enqueued dispatch records, and the number of `fetch` calls it
performed.
-/

inductive PyVal where
  | none
  | nat (n : Nat)
  | str (s : String)
  | tup (xs : List PyVal)

mutual

def PyVal.decEq : (a b : PyVal) → Decidable (a = b)
  | PyVal.none, PyVal.none => isTrue rfl
  | PyVal.none, PyVal.nat _ => isFalse (fun h => PyVal.noConfusion h)
  | PyVal.none, PyVal.str _ => isFalse (fun h => PyVal.noConfusion h)
  | PyVal.none, PyVal.tup _ => isFalse (fun h => PyVal.noConfusion h)
  | PyVal.nat _, PyVal.none => isFalse (fun h => PyVal.noConfusion h)
  | PyVal.nat a, PyVal.nat b =>
      match Nat.decEq a b with
      | isTrue h => isTrue (by rw [h])
      | isFalse h => isFalse (by intro hh; injection hh; contradiction)
  | PyVal.nat _, PyVal.str _ => isFalse (fun h => PyVal.noConfusion h)
  | PyVal.nat _, PyVal.tup _ => isFalse (fun h => PyVal.noConfusion h)
  | PyVal.str _, PyVal.none => isFalse (fun h => PyVal.noConfusion h)
  | PyVal.str _, PyVal.nat _ => isFalse (fun h => PyVal.noConfusion h)
  | PyVal.str a, PyVal.str b =>
      match String.decEq a b with
      | isTrue h => isTrue (by rw [h])
      | isFalse h => isFalse (by intro hh; injection hh; contradiction)
  | PyVal.str _, PyVal.tup _ => isFalse (fun h => PyVal.noConfusion h)
  | PyVal.tup _, PyVal.none => isFalse (fun h => PyVal.noConfusion h)
  | PyVal.tup _, PyVal.nat _ => isFalse (fun h => PyVal.noConfusion h)
  | PyVal.tup _, PyVal.str _ => isFalse (fun h => PyVal.noConfusion h)
  | PyVal.tup xs, PyVal.tup ys =>
      match PyVal.decEqList xs ys with
      | isTrue h => isTrue (by rw [h])
      | isFalse h => isFalse (by intro hh; injection hh; contradiction)

def PyVal.decEqList : (xs ys : List PyVal) → Decidable (xs = ys)
  | [], [] => isTrue rfl
  | [], _ :: _ => isFalse (fun h => List.noConfusion h)
  | _ :: _, [] => isFalse (fun h => List.noConfusion h)
  | x :: xs, y :: ys =>
      match PyVal.decEq x y with
      | isFalse h1 => isFalse (by intro hh; injection hh; contradiction)
      | isTrue h1 =>
          match PyVal.decEqList xs ys with
          | isTrue h2 => isTrue (by rw [h1, h2])
          | isFalse h2 => isFalse (by intro hh; injection hh; contradiction)

end

instance : DecidableEq PyVal := PyVal.decEq

instance {ε α : Type} [DecidableEq ε] [DecidableEq α] : DecidableEq (Except ε α)
  | Except.ok x, Except.ok y =>
      match decEq x y with
      | isTrue h => isTrue (by rw [h])
      | isFalse h => isFalse (by intro hh; injection hh; contradiction)
  | Except.ok _, Except.error _ => isFalse (fun h => Except.noConfusion h)
  | Except.error _, Except.ok _ => isFalse (fun h => Except.noConfusion h)
  | Except.error x, Except.error y =>
      match decEq x y with
      | isTrue h => isTrue (by rw [h])
      | isFalse h => isFalse (by intro hh; injection hh; contradiction)

mutual

/-- Python `repr`-style rendering used to model `"%s-%s" % (args, kwargs)`
in the default `key` method (the `%s` conversion of a tuple). -/
def pyRepr : PyVal → String
  | PyVal.none => "None"
  | PyVal.nat n => toString n
  | PyVal.str s => "\x27" ++ s ++ "\x27"
  | PyVal.tup xs => pyTupRepr xs

/-- `%s` of a Python tuple, with the trailing comma of 1-tuples. -/
def pyTupRepr : List PyVal → String
  | [] => "()"
  | [x] => "(" ++ pyRepr x ++ ",)"
  | x :: y :: rest => "(" ++ pyRepr x ++ pyListRepr (y :: rest) ++ ")"

def pyListRepr : List PyVal → String
  | [] => ""
  | x :: rest => ", " ++ pyRepr x ++ pyListRepr rest

end

/-- `%s` of a Python kwargs dict, e.g. a map from name to value. -/
def pyKwargsRepr (kwargs : List (String × PyVal)) : String :=
  "\x7b" ++ String.intercalate ", "
    (kwargs.map (fun p => "\x27" ++ p.1 ++ "\x27: " ++ pyRepr p.2)) ++ "\x7d"

/-- `MEMCACHE_MAX_EXPIRATION = 2592000` (jobs.py line 10): 30 days in
seconds, passed as the timeout of every `cache.set`. -/
def MEMCACHE_MAX_EXPIRATION : Nat := 2592000

/-- The Django cache, modelled as an association list of
(key, stored value, timeout).  `cacheSet` prepends; `cacheGet` reads the
most recent binding. -/
abbrev Cache := List (PyVal × PyVal × Nat)

/-- `cache.get(key)`: the stored value, or Python `None` when absent
(the Django `cache.get` default).  A stored `None` is indistinguishable from
absence, exactly as in the source. -/
def cacheGet (c : Cache) (k : PyVal) : PyVal :=
  match List.find? (fun e => decide (e.1 = k)) c with
  | Option.some e => e.2.1
  | Option.none => PyVal.none

/-- `cache.set(key, value, timeout)`. -/
def cacheSet (c : Cache) (k v : PyVal) (timeout : Nat) : Cache :=
  (k, v, timeout) :: c

/-- A successful enqueue on the task queue:
`tasks.refresh_cache.delay(self.class_path, *args, **kwargs)` carries the
class path of the job and the original call arguments. -/
structure DispatchRec where
  class_path : String
  args : List PyVal
  kwargs : List (String × PyVal)
  deriving DecidableEq

/-- The task dispatcher of the environment (`tasks.refresh_cache.delay`):
succeeds or raises. -/
abbrev Dispatcher := String → List PyVal → List (String × PyVal) → Except String Unit

/-- The default `key` method (jobs.py lines 89-100):
no args and no kwargs → `self.class_path`; args and no kwargs → the args
tuple itself; otherwise → `"%s-%s" % (args, kwargs)`. -/
def defaultKey (class_path : String) (args : List PyVal)
    (kwargs : List (String × PyVal)) : PyVal :=
  if args = [] ∧ kwargs = [] then PyVal.str class_path
  else if args ≠ [] ∧ kwargs = [] then PyVal.tup args
  else PyVal.str (pyTupRepr args ++ "-" ++ pyKwargsRepr kwargs)

/-- `class AsyncCacheJob`.  `class_path` models the `class_path` property
(the module path dot the class name); `fetch` is the abstract expensive
computation (it may raise); `empty`, `time_to_live` and `key` are the
overridable methods, with the base-class defaults (`None`,
`time.time() + self.lifetime`, and `defaultKey`).  `time_to_live` takes the
current time as its first argument, modelling its internal `time.time()`
call. -/
structure AsyncCacheJob where
  class_path : String
  lifetime : Nat := 600
  fetch_on_empty : Bool := true
  fetch : List PyVal → List (String × PyVal) → Except String PyVal
  empty : PyVal := PyVal.none
  time_to_live : Nat → List PyVal → List (String × PyVal) → Nat :=
    fun now _ _ => now + lifetime
  key : List PyVal → List (String × PyVal) → PyVal := defaultKey class_path

/-- `AsyncCacheJob.refresh` (jobs.py lines 54-62): call `self.fetch`, then
`cache.set(self.key(...), (self.time_to_live(...), result),
MEMCACHE_MAX_EXPIRATION)` and return the result.  If `fetch` raises, the
exception propagates and the cache is returned unchanged. -/
def AsyncCacheJob.refresh (J : AsyncCacheJob) (c : Cache) (now : Nat) (args : List PyVal)
    (kwargs : List (String × PyVal)) : Except String PyVal × Cache :=
  match J.fetch args kwargs with
  | Except.error e => (Except.error e, c)
  | Except.ok result =>
      (Except.ok result,
        cacheSet c (J.key args kwargs)
          (PyVal.tup [PyVal.nat (J.time_to_live now args kwargs), result])
          MEMCACHE_MAX_EXPIRATION)

/-- `AsyncCacheJob.async_refresh` (jobs.py lines 64-68):
`tasks.refresh_cache.delay(self.class_path, *args, **kwargs)`.  The `key`
parameter is received but never used.  A raised enqueue error propagates
(there is no exception handling in the source). -/
def AsyncCacheJob.async_refresh (J : AsyncCacheJob) (dispatch : Dispatcher) (k : PyVal)
    (args : List PyVal) (kwargs : List (String × PyVal)) :
    Except String (List DispatchRec) :=
  match dispatch J.class_path args kwargs with
  | Except.ok _ => Except.ok [DispatchRec.mk J.class_path args kwargs]
  | Except.error e => Except.error e

/-- Errors that can escape `AsyncCacheJob.get`: an exception from `fetch`
(through the synchronous `refresh`), an exception from the dispatcher
enqueue (through `async_refresh`), or a Python runtime error from indexing
a cached value that is not a `(timestamp, payload)` tuple. -/
inductive GetErr where
  | fetchErr (e : String)
  | dispatchErr (e : String)
  | typeErr
  deriving DecidableEq

/-- `AsyncCacheJob.get` (jobs.py lines 20-52).  Returns
(result-or-exception, cache after the call, successfully enqueued
dispatches, number of synchronous `fetch` invocations).

Branches, as in the source: `result is None` → miss (synchronous `refresh`
when `fetch_on_empty`, else `async_refresh` + `empty()`);
`result[0] < time.time()` → stale hit (`async_refresh`, then return
`result[1]`); otherwise fresh hit (return `result[1]`).  Only entries of
the shape written by `refresh` — a tuple whose first item is a timestamp —
support the `result[0]`/`result[1]` accesses; anything else is modelled as
a runtime type error. -/
def AsyncCacheJob.get (J : AsyncCacheJob) (dispatch : Dispatcher) (c : Cache) (now : Nat)
    (args : List PyVal) (kwargs : List (String × PyVal)) :
    Except GetErr PyVal × Cache × List DispatchRec × Nat :=
  let k := J.key args kwargs
  let result := cacheGet c k
  if result = PyVal.none then
    if J.fetch_on_empty then
      match J.refresh c now args kwargs with
      | (Except.ok r, c2) => (Except.ok r, c2, [], 1)
      | (Except.error e, c2) => (Except.error (GetErr.fetchErr e), c2, [], 1)
    else
      match J.async_refresh dispatch k args kwargs with
      | Except.ok recs => (Except.ok J.empty, c, recs, 0)
      | Except.error e => (Except.error (GetErr.dispatchErr e), c, [], 0)
  else
    match result with
    | PyVal.tup (PyVal.nat t :: payload :: _) =>
        if t < now then
          match J.async_refresh dispatch k args kwargs with
          | Except.ok recs => (Except.ok payload, c, recs, 0)
          | Except.error e => (Except.error (GetErr.dispatchErr e), c, [], 0)
        else
          (Except.ok payload, c, [], 0)
    | _ => (Except.error GetErr.typeErr, c, [], 0)

/-! Concrete instances used by the witnesses, modelled on the jobs in
`tests/job_tests.py`. -/

/-- The value fetched by `NoArgsJob` in the tests: the tuple (1, 2, 3). -/
def wVal : PyVal := PyVal.tup [PyVal.nat 1, PyVal.nat 2, PyVal.nat 3]

/-- `tests.NoArgsJob`: default configuration, `fetch` returns (1, 2, 3). -/
def wJob : AsyncCacheJob :=
  AsyncCacheJob.mk "tests.NoArgsJob" 600 true (fun _ _ => Except.ok wVal)
    PyVal.none (fun now _ _ => now + 600) (defaultKey "tests.NoArgsJob")

/-- A job with `fetch_on_empty = False` whose `fetch` raises, showing that
the non-blocking miss path never touches `fetch`. -/
def wEmptyFailJob : AsyncCacheJob :=
  AsyncCacheJob.mk "tests.NoArgsUseEmptyJob" 600 false
    (fun _ _ => Except.error "boom") PyVal.none (fun now _ _ => now + 600)
    (defaultKey "tests.NoArgsUseEmptyJob")

/-- A job whose `fetch` raises, for the failure branch of `refresh`. -/
def wFailJob : AsyncCacheJob :=
  AsyncCacheJob.mk "tests.FailJob" 600 true (fun _ _ => Except.error "boom")
    PyVal.none (fun now _ _ => now + 600) (defaultKey "tests.FailJob")

/-- A job whose `fetch` returns Python `None`. -/
def wNoneJob : AsyncCacheJob :=
  AsyncCacheJob.mk "tests.NoneJob" 600 true (fun _ _ => Except.ok PyVal.none)
    PyVal.none (fun now _ _ => now + 600) (defaultKey "tests.NoneJob")

/-- A dispatcher whose enqueue always succeeds. -/
def okDispatch : Dispatcher := fun _ _ _ => Except.ok ()

/-- A dispatcher whose enqueue always raises (broker unavailable). -/
def failDispatch : Dispatcher := fun _ _ _ => Except.error "broker unavailable"

/-- A cache seeded with an entry for `wJob` (no arguments) whose expiry
timestamp is 0, hence stale at any `now > 0` and fresh at `now = 0`. -/
def wSeededCache : Cache :=
  [(PyVal.str "tests.NoArgsJob", PyVal.tup [PyVal.nat 0, PyVal.nat 7], 2592000)]

/-- Reading back the binding just written. -/
theorem cacheGet_set_self (c : Cache) (k v : PyVal) (t : Nat) :
    cacheGet (cacheSet c k v t) k = v := by
  simp [cacheGet, cacheSet, List.find?]

/-- C1: with `fetch_on_empty = true` and an empty cache under `key(args)`,
`get` runs `refresh` synchronously and returns exactly the fetched value
(one `fetch` call, no dispatch), writing the entry; a second `get` while
that entry is still fresh (`now2 ≤ expiresAt`) returns the same value from
the cache with no further `fetch` call and no other effect. -/
theorem get_sync_miss_then_fresh_hit (J : AsyncCacheJob) (d : Dispatcher)
    (c : Cache) (now now2 : Nat) (args : List PyVal)
    (kwargs : List (String × PyVal)) (v : PyVal)
    (hflag : J.fetch_on_empty = true)
    (hmiss : cacheGet c (J.key args kwargs) = PyVal.none)
    (hfetch : J.fetch args kwargs = Except.ok v)
    (hfresh : now2 ≤ J.time_to_live now args kwargs) :
    J.get d c now args kwargs =
      (Except.ok v,
        cacheSet c (J.key args kwargs)
          (PyVal.tup [PyVal.nat (J.time_to_live now args kwargs), v])
          MEMCACHE_MAX_EXPIRATION, [], 1) ∧
    J.get d (cacheSet c (J.key args kwargs)
        (PyVal.tup [PyVal.nat (J.time_to_live now args kwargs), v])
        MEMCACHE_MAX_EXPIRATION) now2 args kwargs =
      (Except.ok v,
        cacheSet c (J.key args kwargs)
          (PyVal.tup [PyVal.nat (J.time_to_live now args kwargs), v])
          MEMCACHE_MAX_EXPIRATION, [], 0) := by
  have hnl : ¬ J.time_to_live now args kwargs < now2 := Nat.not_lt.mpr hfresh
  constructor
  · simp [AsyncCacheJob.get, AsyncCacheJob.refresh, hmiss, hflag, hfetch]
  · simp [AsyncCacheJob.get, cacheGet_set_self, hnl]

/-- C1 witness: `wJob` on an empty cache at time 0, then again at time
600 (the expiry timestamp itself, still fresh). -/
theorem get_sync_miss_then_fresh_hit_witness :
    wJob.get okDispatch [] 0 [] [] =
      (Except.ok wVal,
        cacheSet [] (wJob.key [] []) (PyVal.tup [PyVal.nat 600, wVal])
          MEMCACHE_MAX_EXPIRATION, [], 1) ∧
    wJob.get okDispatch
        (cacheSet [] (wJob.key [] []) (PyVal.tup [PyVal.nat 600, wVal])
          MEMCACHE_MAX_EXPIRATION) 600 [] [] =
      (Except.ok wVal,
        cacheSet [] (wJob.key [] []) (PyVal.tup [PyVal.nat 600, wVal])
          MEMCACHE_MAX_EXPIRATION, [], 0) :=
  get_sync_miss_then_fresh_hit wJob okDispatch [] 0 600 [] [] wVal rfl rfl rfl
    (by decide)

/-- C2: on a stale hit (`expiresAt < now`), `get` returns the stale payload
unchanged, performs exactly one dispatch carrying the original call
arguments, does not call `fetch`, and leaves the cache untouched. -/
theorem get_stale_hit (J : AsyncCacheJob) (d : Dispatcher) (c : Cache)
    (now : Nat) (args : List PyVal) (kwargs : List (String × PyVal))
    (t : Nat) (payload : PyVal)
    (hentry : cacheGet c (J.key args kwargs) =
      PyVal.tup [PyVal.nat t, payload])
    (hstale : t < now)
    (hdisp : d J.class_path args kwargs = Except.ok ()) :
    J.get d c now args kwargs =
      (Except.ok payload, c, [DispatchRec.mk J.class_path args kwargs], 0) := by
  simp [AsyncCacheJob.get, AsyncCacheJob.async_refresh, hentry, hstale, hdisp]

/-- C2 witness: the seeded stale entry (payload 7, expiry 0) read at time
601. -/
theorem get_stale_hit_witness :
    wJob.get okDispatch wSeededCache 601 [] [] =
      (Except.ok (PyVal.nat 7), wSeededCache,
        [DispatchRec.mk "tests.NoArgsJob" [] []], 0) :=
  get_stale_hit wJob okDispatch wSeededCache 601 [] [] 0 (PyVal.nat 7)
    (by decide) (by decide) rfl

/-- C3: with `fetch_on_empty = false` and an empty cache under `key(args)`,
`get` returns `empty()`, performs exactly one dispatch carrying the
original call arguments, never calls `fetch` (zero `fetch` invocations, so
no error of `fetch` can surface), and leaves the cache untouched. -/
theorem get_async_miss (J : AsyncCacheJob) (d : Dispatcher) (c : Cache)
    (now : Nat) (args : List PyVal) (kwargs : List (String × PyVal))
    (hflag : J.fetch_on_empty = false)
    (hmiss : cacheGet c (J.key args kwargs) = PyVal.none)
    (hdisp : d J.class_path args kwargs = Except.ok ()) :
    J.get d c now args kwargs =
      (Except.ok J.empty, c, [DispatchRec.mk J.class_path args kwargs], 0) := by
  simp [AsyncCacheJob.get, AsyncCacheJob.async_refresh, hflag, hmiss, hdisp]

/-- C3 witness: a job whose `fetch` raises still answers `None` without
error on the non-blocking miss path. -/
theorem get_async_miss_witness :
    wEmptyFailJob.get okDispatch [] 0 [] [] =
      (Except.ok PyVal.none, [],
        [DispatchRec.mk "tests.NoArgsUseEmptyJob" [] []], 0) :=
  get_async_miss wEmptyFailJob okDispatch [] 0 [] [] rfl rfl rfl

/-- C4: `refresh` calls `fetch`; on success it writes
`(time_to_live(args), result)` under `key(args)` with the 30-day timeout
`MEMCACHE_MAX_EXPIRATION = 2592000` and returns the result; on failure the
error propagates and the cache is exactly the one before the call. -/
theorem refresh_writes_or_propagates (J : AsyncCacheJob) (c : Cache)
    (now : Nat) (args : List PyVal) (kwargs : List (String × PyVal)) :
    (∀ v, J.fetch args kwargs = Except.ok v →
      J.refresh c now args kwargs =
        (Except.ok v,
          cacheSet c (J.key args kwargs)
            (PyVal.tup [PyVal.nat (J.time_to_live now args kwargs), v])
            MEMCACHE_MAX_EXPIRATION)) ∧
    (∀ e, J.fetch args kwargs = Except.error e →
      J.refresh c now args kwargs = (Except.error e, c)) ∧
    MEMCACHE_MAX_EXPIRATION = 2592000 := by
  refine ⟨fun v hv => ?_, fun e he => ?_, rfl⟩
  · simp [AsyncCacheJob.refresh, hv]
  · simp [AsyncCacheJob.refresh, he]

/-- C4 witness: the success branch on `wJob` and the failure branch on
`wFailJob`, both from the empty cache. -/
theorem refresh_writes_or_propagates_witness :
    wJob.refresh [] 0 [] [] =
      (Except.ok wVal,
        cacheSet [] (wJob.key [] []) (PyVal.tup [PyVal.nat 600, wVal])
          MEMCACHE_MAX_EXPIRATION) ∧
    wFailJob.refresh [] 0 [] [] = (Except.error "boom", []) :=
  ⟨(refresh_writes_or_propagates wJob [] 0 [] []).1 wVal rfl,
   (refresh_writes_or_propagates wFailJob [] 0 [] []).2.1 "boom" rfl⟩

/-- C5 counterexample: with the seeded stale entry and a dispatcher whose
enqueue raises, `get` does not return the stale payload 7 — it raises the
dispatch error to its caller (there is no exception handling around
`tasks.refresh_cache.delay` in the source). -/
theorem get_dispatch_error_counterexample :
    (wJob.get failDispatch wSeededCache 601 [] []).1 ≠
      Except.ok (PyVal.nat 7) ∧
    (wJob.get failDispatch wSeededCache 601 [] []).1 =
      Except.error (GetErr.dispatchErr "broker unavailable") := by
  constructor
  · decide
  · decide

/-- C5 amended: a dispatcher enqueue failure propagates out of `get` as an
exception on both the stale-hit path and the non-blocking miss path
(`fetch_on_empty = false`); `get` does not return the stale payload or
`empty()` in those cases (the cache is still left untouched and `fetch` is
not called). -/
theorem get_dispatch_error_propagates (J : AsyncCacheJob) (d : Dispatcher)
    (c : Cache) (now : Nat) (args : List PyVal)
    (kwargs : List (String × PyVal)) (e : String)
    (hdisp : d J.class_path args kwargs = Except.error e) :
    (∀ t payload, cacheGet c (J.key args kwargs) =
        PyVal.tup [PyVal.nat t, payload] → t < now →
      J.get d c now args kwargs =
        (Except.error (GetErr.dispatchErr e), c, [], 0)) ∧
    (cacheGet c (J.key args kwargs) = PyVal.none →
        J.fetch_on_empty = false →
      J.get d c now args kwargs =
        (Except.error (GetErr.dispatchErr e), c, [], 0)) := by
  constructor
  · intro t payload hentry hstale
    simp [AsyncCacheJob.get, AsyncCacheJob.async_refresh, hentry, hstale,
      hdisp]
  · intro hmiss hflag
    simp [AsyncCacheJob.get, AsyncCacheJob.async_refresh, hmiss, hflag,
      hdisp]

/-- C5 amended witness: the error escapes on the stale-hit path of `wJob`
and on the non-blocking miss path of `wEmptyFailJob`. -/
theorem get_dispatch_error_propagates_witness :
    wJob.get failDispatch wSeededCache 601 [] [] =
      (Except.error (GetErr.dispatchErr "broker unavailable"),
        wSeededCache, [], 0) ∧
    wEmptyFailJob.get failDispatch [] 0 [] [] =
      (Except.error (GetErr.dispatchErr "broker unavailable"), [], [], 0) :=
  ⟨(get_dispatch_error_propagates wJob failDispatch wSeededCache 601 [] []
      "broker unavailable" rfl).1 0 (PyVal.nat 7) (by decide) (by decide),
   (get_dispatch_error_propagates wEmptyFailJob failDispatch [] 0 [] []
      "broker unavailable" rfl).2 rfl rfl⟩

/-- C6: the default key derivation — no arguments at all gives the class
path of the job; positional arguments only give the argument tuple itself;
any named arguments give the formatted string combining positional and
named arguments; and two distinct positional-only argument tuples always
derive distinct keys. -/
theorem defaultKey_shapes (cp : String) (args args2 : List PyVal)
    (kwargs : List (String × PyVal)) :
    defaultKey cp [] [] = PyVal.str cp ∧
    (args ≠ [] → defaultKey cp args [] = PyVal.tup args) ∧
    (kwargs ≠ [] → defaultKey cp args kwargs =
      PyVal.str (pyTupRepr args ++ "-" ++ pyKwargsRepr kwargs)) ∧
    (args ≠ [] → args2 ≠ [] → args ≠ args2 →
      defaultKey cp args [] ≠ defaultKey cp args2 []) := by
  refine ⟨by simp [defaultKey], fun h => by simp [defaultKey, h],
    fun h => by simp [defaultKey, h], fun h1 h2 hne => ?_⟩
  simp [defaultKey, h1, h2]
  exact hne

/-- C6 witness: the argument tuples of the test `SingleArgJob`. -/
theorem defaultKey_shapes_witness :
    defaultKey "tests.SingleArgJob" [PyVal.str "alan"] [] =
      PyVal.tup [PyVal.str "alan"] ∧
    defaultKey "tests.SingleArgJob" [PyVal.str "alan"] [] ≠
      defaultKey "tests.SingleArgJob" [PyVal.str "barry"] [] :=
  ⟨(defaultKey_shapes "tests.SingleArgJob" [PyVal.str "alan"]
      [PyVal.str "barry"] []).2.1 (by decide),
   (defaultKey_shapes "tests.SingleArgJob" [PyVal.str "alan"]
      [PyVal.str "barry"] []).2.2.2 (by decide) (by decide) (by decide)⟩

/-- C7 counterexample: two distinct job identities derive the same default
key as soon as a positional argument is present — the class path enters the
key only in the no-arguments case. -/
theorem defaultKey_not_namespaced_counterexample :
    defaultKey "tests.SingleArgJob" [PyVal.str "alan"] [] =
      defaultKey "other.OtherJob" [PyVal.str "alan"] [] ∧
    "tests.SingleArgJob" ≠ "other.OtherJob" := by
  constructor
  · rfl
  · decide

/-- C7 amended: the default key incorporates the job identity only in the
no-arguments case, where distinct identities give distinct keys; whenever
positional or named arguments are present, the derived key does not depend
on the job identity at all, so two distinct job types derive the same key
for the same arguments. -/
theorem defaultKey_namespacing (cp1 cp2 : String) (args : List PyVal)
    (kwargs : List (String × PyVal)) :
    (cp1 ≠ cp2 → defaultKey cp1 [] [] ≠ defaultKey cp2 [] []) ∧
    (args ≠ [] ∨ kwargs ≠ [] →
      defaultKey cp1 args kwargs = defaultKey cp2 args kwargs) := by
  constructor
  · intro h heq
    simp [defaultKey] at heq
    exact h heq
  · intro h
    have hne : ¬ (args = [] ∧ kwargs = []) := by
      rcases h with h | h
      · exact fun hc => h hc.1
      · exact fun hc => h hc.2
    simp only [defaultKey, if_neg hne]

/-- C7 amended witness: distinct identities are kept apart with no
arguments, but collide on the argument `alan`. -/
theorem defaultKey_namespacing_witness :
    defaultKey "tests.SingleArgJob" [] [] ≠ defaultKey "other.OtherJob" [] [] ∧
    defaultKey "tests.SingleArgJob" [PyVal.str "alan"] [] =
      defaultKey "other.OtherJob" [PyVal.str "alan"] [] :=
  ⟨(defaultKey_namespacing "tests.SingleArgJob" "other.OtherJob" [] []).1
      (by decide),
   (defaultKey_namespacing "tests.SingleArgJob" "other.OtherJob"
      [PyVal.str "alan"] []).2 (Or.inl (by decide))⟩

/-- C8: on a fresh hit (`expiresAt ≥ now`), `get` returns the cached
payload with no side effect at all: no `fetch` call, no cache write, no
dispatch — for any dispatcher whatsoever. -/
theorem get_fresh_hit (J : AsyncCacheJob) (d : Dispatcher) (c : Cache)
    (now : Nat) (args : List PyVal) (kwargs : List (String × PyVal))
    (t : Nat) (payload : PyVal)
    (hentry : cacheGet c (J.key args kwargs) =
      PyVal.tup [PyVal.nat t, payload])
    (hfresh : ¬ t < now) :
    J.get d c now args kwargs = (Except.ok payload, c, [], 0) := by
  simp [AsyncCacheJob.get, hentry, hfresh]

/-- C8 witness: the seeded entry read at time 0 (its own expiry timestamp)
is fresh, even with the failing dispatcher, which is never consulted. -/
theorem get_fresh_hit_witness :
    wJob.get failDispatch wSeededCache 0 [] [] =
      (Except.ok (PyVal.nat 7), wSeededCache, [], 0) :=
  get_fresh_hit wJob failDispatch wSeededCache 0 [] [] 0 (PyVal.nat 7)
    (by decide) (by decide)

/-- C9: `async_refresh` ignores its `key` parameter entirely — any two key
values give the identical enqueue — and a successful enqueue is addressed
by the class path of the job together with the original call arguments. -/
theorem async_refresh_ignores_key (J : AsyncCacheJob) (d : Dispatcher)
    (k1 k2 : PyVal) (args : List PyVal) (kwargs : List (String × PyVal)) :
    J.async_refresh d k1 args kwargs = J.async_refresh d k2 args kwargs ∧
    (d J.class_path args kwargs = Except.ok () →
      J.async_refresh d k1 args kwargs =
        Except.ok [DispatchRec.mk J.class_path args kwargs]) := by
  constructor
  · rfl
  · intro h
    simp [AsyncCacheJob.async_refresh, h]

/-- C9 witness: two unrelated key values produce the same enqueue for
`wJob`. -/
theorem async_refresh_ignores_key_witness :
    wJob.async_refresh okDispatch (PyVal.str "k1") [] [] =
      wJob.async_refresh okDispatch (PyVal.nat 42) [] [] ∧
    wJob.async_refresh okDispatch (PyVal.str "k1") [] [] =
      Except.ok [DispatchRec.mk "tests.NoArgsJob" [] []] :=
  ⟨(async_refresh_ignores_key wJob okDispatch (PyVal.str "k1")
      (PyVal.nat 42) [] []).1,
   (async_refresh_ignores_key wJob okDispatch (PyVal.str "k1")
      (PyVal.nat 42) [] []).2 rfl⟩

/-- C10: every value a successful `refresh` stores is the two-element tuple
`(expiry, payload)` — never Python `None`, even when `fetch` returned
`None` — so the miss test of `get` (`result is None`) never classifies an
entry written by `refresh` as a miss, and while fresh the cached payload
(possibly `None`) is returned as a hit with no effects. -/
theorem refresh_never_stores_none (J : AsyncCacheJob) (c : Cache)
    (now : Nat) (args : List PyVal) (kwargs : List (String × PyVal))
    (v : PyVal) (hfetch : J.fetch args kwargs = Except.ok v) :
    cacheGet (J.refresh c now args kwargs).2 (J.key args kwargs) =
      PyVal.tup [PyVal.nat (J.time_to_live now args kwargs), v] ∧
    cacheGet (J.refresh c now args kwargs).2 (J.key args kwargs) ≠
      PyVal.none ∧
    (∀ (d : Dispatcher) (now2 : Nat),
      ¬ J.time_to_live now args kwargs < now2 →
      J.get d (J.refresh c now args kwargs).2 now2 args kwargs =
        (Except.ok v, (J.refresh c now args kwargs).2, [], 0)) := by
  have hc : (J.refresh c now args kwargs).2 =
      cacheSet c (J.key args kwargs)
        (PyVal.tup [PyVal.nat (J.time_to_live now args kwargs), v])
        MEMCACHE_MAX_EXPIRATION := by
    simp [AsyncCacheJob.refresh, hfetch]
  refine ⟨?_, ?_, ?_⟩
  · rw [hc, cacheGet_set_self]
  · rw [hc, cacheGet_set_self]
    simp
  · intro d now2 hfresh
    rw [hc]
    simp [AsyncCacheJob.get, cacheGet_set_self, hfresh]

/-- C10 witness: `wNoneJob` fetches Python `None`; the stored entry is
`(600, None)`, not `None`, and the follow-up `get` at time 600 is a hit
returning `None` without effects. -/
theorem refresh_never_stores_none_witness :
    cacheGet (wNoneJob.refresh [] 0 [] []).2 (wNoneJob.key [] []) =
      PyVal.tup [PyVal.nat 600, PyVal.none] ∧
    cacheGet (wNoneJob.refresh [] 0 [] []).2 (wNoneJob.key [] []) ≠
      PyVal.none ∧
    wNoneJob.get okDispatch (wNoneJob.refresh [] 0 [] []).2 600 [] [] =
      (Except.ok PyVal.none, (wNoneJob.refresh [] 0 [] []).2, [], 0) :=
  ⟨(refresh_never_stores_none wNoneJob [] 0 [] [] PyVal.none rfl).1,
   (refresh_never_stores_none wNoneJob [] 0 [] [] PyVal.none rfl).2.1,
   (refresh_never_stores_none wNoneJob [] 0 [] [] PyVal.none rfl).2.2
      okDispatch 600 (by decide)⟩
